import Mathlib

/-!
Shallow embedding of the BRK_CNC_ClampingPlateManager Excel-to-JSON pipeline.

Sources embedded:
* `utils/ExcelProcessor.js` — worksheet row grouping (`groupRowsByMergedPlates`),
  work-history parsing (`parseWorkHistory`), header detection (`findHeaderRow`),
  locked-plate detection (`hasRedBackground`, `isManuallyLocked`, `isRedColor`).
* `utils/ModelFolderValidator.js` — `validateModelFolders`, `validateSingleFolder`.
* `src/convert_excel_to_json.js` — `convertExcelToJson` control flow,
  `scanModelFiles`, `matchPlatesWithModels`.

Modelling conventions:
* Worksheet cells are strings (the JS reads sheets with `defval: ""`, so every
  cell is defaulted to `""`; `String(row[i] || "")` is `(row.getD i "")`).
* Cell styles (the `worksheet[cellRef]` lookup used by `hasRedBackground`) are
  an explicit lookup function `Nat → Nat → Option Cell` on (0-based row, col).
* JavaScript `trim` / `\s` / `toLowerCase` are modelled with executable
  character-list functions (`jsTrim`, `jsWs`, `jsToLower`); non-ASCII case
  mapping is approximated by the identity — the repository's data (plate
  numbers, extensions, header keywords) is ASCII or already lower-case,
  where the two coincide.
* Filesystem traversals are modelled on explicit entry lists; `fs` errors are
  out of scope (the abstract filesystem always answers).
-/

namespace ClampingPlate

/-- Does `pat` occur at the start of `s`? -/
def matchesAt : List Char → List Char → Bool
  | [], _ => true
  | _ :: _, [] => false
  | a :: as, b :: bs => a = b && matchesAt as bs

/-- Does `pat` occur anywhere in `s`? -/
def hasSub (pat : List Char) : List Char → Bool
  | [] => pat.isEmpty
  | b :: bs => matchesAt pat (b :: bs) || hasSub pat bs

/-- Substring test, JS `value.includes(pattern)`. -/
def strIncludes (s pat : String) : Bool :=
  hasSub pat.toList s.toList

/-- JS `String.prototype.toLowerCase` (ASCII approximation). -/
def jsToLower (s : String) : String :=
  String.mk (s.data.map Char.toLower)

/-- JS `String.prototype.toUpperCase` (ASCII approximation). -/
def jsToUpper (s : String) : String :=
  String.mk (s.data.map Char.toUpper)

/-- The JS whitespace class `\s` (the common members; exotic Unicode spaces
are approximated away). Also the class `String.prototype.trim` strips. -/
def jsWs (c : Char) : Bool :=
  c = ' ' || c = '\t' || c = '\n' || c = '\r' ||
    c = Char.ofNat 0x0B || c = Char.ofNat 0x0C ||
    c = Char.ofNat 0xA0 || c = Char.ofNat 0xFEFF

/-- JS `String.prototype.trim`: strip whitespace from both ends. -/
def jsTrim (s : String) : String :=
  String.mk (((s.data.dropWhile jsWs).reverse.dropWhile jsWs).reverse)

/-- Split a string at every separator character (JS `split(/[..]/)`:
separators are consumed, empty segments are kept, the empty string yields
one empty segment). -/
def splitChars (p : Char → Bool) (s : String) : List String :=
  (go [] s.data).map fun cs => String.mk cs.reverse
where
  /-- Accumulates the current segment in reverse. -/
  go (acc : List Char) : List Char → List (List Char)
    | [] => [acc]
    | c :: cs => if p c then acc :: go [] cs else go (c :: acc) cs

/-- JS `Array.prototype.join(sep)`. -/
def joinWith (sep : String) : List String → String
  | [] => ""
  | [x] => x
  | x :: xs => x ++ sep ++ joinWith sep xs

/-- Suffix of a character list starting at its last dot, if any. -/
def lastDotSuffix : List Char → Option (List Char)
  | [] => none
  | c :: rest =>
    match lastDotSuffix rest with
    | some s => some s
    | none => if c = '.' then some (c :: rest) else none

/-- Node's `path.extname` on a basename: the substring from the last `.` to the
end, except that a dot at position 0 does not count (".bashrc" has no ext). -/
def extname (file : String) : String :=
  match file.toList with
  | [] => ""
  | _ :: rest =>
    match lastDotSuffix rest with
    | some s => String.mk s
    | none => ""

/-- Lower-cased extension, JS `path.extname(file).toLowerCase()`. -/
def extLower (file : String) : String :=
  jsToLower (extname file)

/-! ### Locked-plate (red background) detection, `utils/ExcelProcessor.js` -/

/-- A cell fill/font color as produced by the xlsx reader: `rgb` is a hex
string, `theme` and `indexed` are numbers. -/
structure XColor where
  rgb : Option String
  theme : Option Nat
  indexed : Option Nat
deriving DecidableEq, Repr

/-- JS `color.rgb || color.theme || color.indexed` (first truthy value,
stringified as `isRedColor` does with `String(colorValue)`); `""` and `0` are
falsy. `none` means the whole chain was falsy, so `isRedColor` sees a falsy
value and answers `false`. -/
def colorValue (c : XColor) : Option String :=
  match c.rgb with
  | some s => if s ≠ "" then some s else
    match c.theme with
    | some t => if t ≠ 0 then some (toString t) else
      match c.indexed with
      | some i => if i ≠ 0 then some (toString i) else none
      | none => none
    | none =>
      match c.indexed with
      | some i => if i ≠ 0 then some (toString i) else none
      | none => none
  | none =>
    match c.theme with
    | some t => if t ≠ 0 then some (toString t) else
      match c.indexed with
      | some i => if i ≠ 0 then some (toString i) else none
      | none => none
    | none =>
      match c.indexed with
      | some i => if i ≠ 0 then some (toString i) else none
      | none => none

/-- `ExcelProcessor.isRedColor`: red hex substrings, red indexed colors,
red theme colors. -/
def isRedColor (colorStr : String) : Bool :=
  let s := jsToUpper colorStr
  let redHexPatterns := ["FFFF0000", "FF0000", "FFC00000", "FFFF9999",
    "FFE6B8B8", "FFFFC0C0", "FFFF8080", "FFFF4040", "FFCC0000"]
  let redIndexes := ["9", "10", "53"]
  let redThemes := ["2"]
  redHexPatterns.any (fun p => strIncludes s p) ||
    redIndexes.contains s || redThemes.contains s

/-- `isRedColor` applied to the result of a `||` color chain; a falsy chain
(`none`) fails the `if (!colorValue) return false` guard. -/
def isRedOpt : Option String → Bool
  | none => false
  | some s => isRedColor s

/-- Fill data of a cell style (`cell.s.fill`). -/
structure XFill where
  patternType : Option String
  fgColor : Option XColor
  bgColor : Option XColor
deriving DecidableEq, Repr

/-- Cell style (`cell.s`): a fill and a possible direct `bgColor`. -/
structure XStyle where
  fill : Option XFill
  bgColor : Option XColor
deriving DecidableEq, Repr

/-- A worksheet cell as seen by `hasRedBackground`: a value and a style. -/
structure Cell where
  v : Option String
  s : Option XStyle
deriving DecidableEq, Repr

/-- `ExcelProcessor.hasRedBackground` on the looked-up cell: no cell or no
style is `false`; otherwise a solid-pattern fill with red `fgColor`, any fill
with red `bgColor`, or a direct style `bgColor` that is red. -/
def hasRedBackgroundCell (cell : Option Cell) : Bool :=
  match cell with
  | none => false
  | some c =>
    match c.s with
    | none => false
    | some style =>
      (match style.fill with
       | none => false
       | some fill =>
         (match fill.fgColor with
          | some fg => fill.patternType == some "solid" && isRedOpt (colorValue fg)
          | none => false) ||
         (match fill.bgColor with
          | some bg => isRedOpt (colorValue bg)
          | none => false)) ||
      (match style.bgColor with
       | some bg => isRedOpt (colorValue bg)
       | none => false)

/-- `ExcelProcessor.isManuallyLocked`: the hard-coded override list. -/
def isManuallyLocked (plateNumber : String) : Bool :=
  let manuallyLockedPlates := ["13", "15", "17", "21", "23", "25", "27", "29",
    "31", "33", "35", "37"]
  manuallyLockedPlates.contains plateNumber

/-- The locked-status computation for a triggering row in
`groupRowsByMergedPlates` (lines 446-463): automatic red-background detection,
falling back to the manual list when the automatic check is negative. -/
def lockStatus (cell : Option Cell) (plateNumber : String) : Bool :=
  hasRedBackgroundCell cell || isManuallyLocked plateNumber

/-! ### Work-history parsing, `ExcelProcessor.parseWorkHistory` -/

/-- A parsed work entry (`{projectCode, workOrder, fullEntry}`). -/
structure WorkProject where
  projectCode : Option String
  workOrder : String
  fullEntry : String
deriving DecidableEq, Repr

/-- Characters matched by the JS regex `.` (anything but a line terminator). -/
def jsDotChar (c : Char) : Bool :=
  c ≠ '\n' && c ≠ '\r' && c ≠ Char.ofNat 0x2028 && c ≠ Char.ofNat 0x2029

/-- Backtracking step of `\s*(.+)$`: `wrev` is the (reversed) part of the
whitespace run still assigned to `\s*`; `r` is the candidate for `(.+)`.
The greedy engine accepts the first nonempty all-dot `r`, giving back
whitespace characters one at a time otherwise. -/
def greedyRest : List Char → List Char → Option (List Char)
  | wrev, r =>
    if r ≠ [] && r.all jsDotChar then some r
    else
      match wrev with
      | [] => none
      | c :: wrev2 => greedyRest wrev2 (c :: r)

/-- The JS regex match `part.match(/^([A-Z]):\s*(.+)$/)`: returns the two
capture groups (the letter and the greedy rest) on success. -/
def matchEntry (part : String) : Option (Char × String) :=
  match part.toList with
  | c0 :: c1 :: rest =>
    if ('A' ≤ c0 && c0 ≤ 'Z') && c1 = ':' then
      let w := rest.takeWhile jsWs
      let r := rest.dropWhile jsWs
      (greedyRest w.reverse r).map fun g => (c0, String.mk g)
    else none
  | _ => none

/-- Split on `,` or `;` (JS `workHistory.split(/[,;]/)`). -/
def splitWorkSeps (s : String) : List String :=
  splitChars (fun c => c = ',' || c = ';') s

/-- The body of the `parseWorkHistory` loop for one trimmed segment: push a
captured entry on a regex match, a fallback entry for any other nonempty
segment, nothing for an empty one. -/
def parseStep (projects : List WorkProject) (part : String) :
    List WorkProject :=
  match matchEntry part with
  | some (projectCode, workOrder) =>
    projects ++ [{ projectCode := some (String.singleton projectCode),
                   workOrder := jsTrim workOrder, fullEntry := part }]
  | none =>
    if part.length > 0 then
      projects ++ [{ projectCode := none, workOrder := part,
                     fullEntry := part }]
    else projects

/-- `ExcelProcessor.parseWorkHistory`: split, trim, then push one entry per
segment — the regex captures on a match, a fallback entry for other nonempty
segments — mirroring the JS `for` loop over `parts`. -/
def parseWorkHistory (workHistory : String) : List WorkProject :=
  let parts := (splitWorkSeps workHistory).map jsTrim
  parts.foldl parseStep []

/-- The per-segment entry a nonempty trimmed segment yields. -/
def entryOfSegment (part : String) : WorkProject :=
  match matchEntry part with
  | some (projectCode, workOrder) =>
    { projectCode := some (String.singleton projectCode),
      workOrder := jsTrim workOrder, fullEntry := part }
  | none => { projectCode := none, workOrder := part, fullEntry := part }

/-! ### Header detection, `ExcelProcessor.findHeaderRow` -/

/-- One row of the `ExcelProcessor.editDistance` dynamic-programming matrix:
`diag`, `left` and the remaining previous-row entries walk the classic
`min(matrix[i-1][j-1]+1, matrix[i][j-1]+1, matrix[i-1][j]+1)` recurrence. -/
def edRowGo : List Char → Char → Nat → Nat → List Nat → List Nat
  | [], _, _, _, _ => []
  | c1 :: s1, c2, diag, left, prev =>
    let up := prev.headD 0
    let cur := if c2 = c1 then diag else 1 + min diag (min left up)
    cur :: edRowGo s1 c2 up cur prev.tail

/-- `ExcelProcessor.editDistance(str1, str2)` (the Levenshtein DP matrix,
result `matrix[str2.length][str1.length]`). -/
def editDistance (str1 str2 : String) : Nat :=
  let s1 := str1.toList
  let row0 := List.range (s1.length + 1)
  let finalRow := str2.toList.foldl
    (fun prev c2 =>
      let first := prev.headD 0 + 1
      first :: edRowGo s1 c2 (prev.headD 0) first prev.tail)
    row0
  finalRow.getLastD 0

/-- `ExcelProcessor.similarity(str1, str2) > 0.7`, rationalised over `Nat`:
`(longer.length - editDistance) / longer.length > 0.7` becomes
`10 * (longer - d) > 7 * longer` (an empty longer string has similarity 1.0). -/
def similarityGtSeven (str1 str2 : String) : Bool :=
  let longer := if str1.length > str2.length then str1 else str2
  let shorter := if str1.length > str2.length then str2 else str1
  if longer.length = 0 then true
  else 10 * (longer.length - editDistance longer shorter) > 7 * longer.length

/-- `ExcelProcessor.matchesAny`: substring containment either way, or
similarity above 0.7. -/
def matchesAny (value : String) (patterns : List String) : Bool :=
  patterns.any fun pattern =>
    strIncludes value pattern || strIncludes pattern value ||
      similarityGtSeven value pattern

/-- The detected column map built per candidate header row (later matching
columns overwrite earlier ones, exactly as the JS assignments do). -/
structure DetectedMap where
  plateNumber : Option Nat := none
  workHistory : Option Nat := none
  shelfNumber : Option Nat := none
  boxSize : Option Nat := none
  shelf : Option Nat := none
  previewImage : Option Nat := none
  id : Option Nat := none
deriving DecidableEq, Repr

/-- One cell of the header-detection scan: the `if/else if` keyword chain of
`findHeaderRow`, returning the updated map and whether the cell matched. -/
def detectCell (m : DetectedMap) (colIndex : Nat) (cell : String) :
    DetectedMap × Bool :=
  let cv := jsTrim (jsToLower cell)
  if matchesAny cv ["készülék", "szám", "number", "equipment"] then
    ({ m with plateNumber := some colIndex }, true)
  else if matchesAny cv ["projekt", "project", "work"] then
    ({ m with workHistory := some colIndex }, true)
  else if matchesAny cv ["raktár", "polc", "shelf", "storage"] then
    ({ m with shelfNumber := some colIndex }, true)
  else if matchesAny cv ["kép", "image", "box", "size", "méret"] then
    ({ m with boxSize := some colIndex }, true)
  else if matchesAny cv ["polc", "shelf", "hely", "location", "pozíció"] then
    ({ m with shelf := some colIndex }, true)
  else if matchesAny cv ["kép", "image", "preview", "előnézet"] then
    ({ m with previewImage := some colIndex }, true)
  else if matchesAny cv ["id", "azonosító", "sorszám"] then
    ({ m with id := some colIndex }, true)
  else (m, false)

/-- Scan one candidate header row, counting keyword matches. -/
def detectRow (row : List String) : DetectedMap × Nat :=
  (row.enum.foldl
    (fun acc cell =>
      let r := detectCell acc.1 cell.1 cell.2
      (r.1, acc.2 + if r.2 then 1 else 0))
    ({}, 0))

/-- Index of the first row (among the first five) that the header heuristic
accepts: nonempty with at least two keyword matches. -/
def detectedHeaderIndex (jsonData : List (List String)) : Option Nat :=
  (List.range (min 5 jsonData.length)).find? fun i =>
    let row := jsonData.getD i []
    !row.isEmpty && decide ((detectRow row).2 ≥ 2)

/-- What `findHeaderRow` returns: a row index and a column map. -/
structure HeaderInfo where
  rowIndex : Nat
  columnMap : DetectedMap
deriving DecidableEq, Repr

/-- The hard-coded canonical layout returned when a header row is detected. -/
def canonicalMap : DetectedMap :=
  { plateNumber := some 0, workHistory := some 1, shelfNumber := some 2,
    previewImage := some 3, boxSize := some 4 }

/-- The hard-coded fallback layout (identical columns, plus the legacy
`shelf` alias) returned when no header row qualifies. -/
def canonicalMapLegacy : DetectedMap :=
  { canonicalMap with shelf := some 2 }

/-- `ExcelProcessor.findHeaderRow`: whichever way detection goes, the result
is a hard-coded layout with `rowIndex = 2`. -/
def findHeaderRow (jsonData : List (List String)) : HeaderInfo :=
  match detectedHeaderIndex jsonData with
  | some _ => { rowIndex := 2, columnMap := canonicalMap }
  | none => { rowIndex := 2, columnMap := canonicalMapLegacy }

/-! ### Row grouping, `ExcelProcessor.groupRowsByMergedPlates` -/

/-- The column indices the grouping loop reads (the canonical layout always
supplies all five). -/
structure ColIdx where
  plateNumber : Nat
  workHistory : Nat
  shelfNumber : Nat
  previewImage : Nat
  boxSize : Nat
deriving DecidableEq, Repr

/-- The canonical column layout as concrete indices (columns 0-4). -/
def colIdxCanonical : ColIdx :=
  { plateNumber := 0, workHistory := 1, shelfNumber := 2, previewImage := 3,
    boxSize := 4 }

/-- `String(row[i] || "").trim()`: missing cells default to `""`. -/
def cellAt (row : List String) (i : Nat) : String :=
  jsTrim (row.getD i "")

/-- The `groupRowsByMergedPlates` empty-row test:
`!row || row.length === 0 || row.every(cell => !cell || trim(cell) === "")`. -/
def isEmptyRow (row : List String) : Bool :=
  row.isEmpty || row.all fun c => jsTrim c = ""

/-- A grouped plate record as built by `groupRowsByMergedPlates` (the
worksheet name, constant across one call, is omitted; the derived fields
`workHistoryCombined`/`rowCount`/`firstRow`/`lastRow` are filled in by the
post-grouping pass `finalizePlate`). -/
structure Plate where
  plateNumber : String
  workHistory : List String
  workProjects : List WorkProject
  shelfNumber : String
  boxSize : String
  previewImage : String
  isLocked : Bool
  sourceRows : List Nat
  workHistoryCombined : String := ""
  rowCount : Nat := 0
  firstRow : Nat := 0
  lastRow : Nat := 0
deriving DecidableEq, Repr

/-- Starting a new plate from a triggering row (nonempty plate number). -/
def mkPlate (pn wh sn pv bs : String) (locked : Bool) (idx : Nat) : Plate :=
  { plateNumber := pn
    workHistory := if wh ≠ "" then [wh] else []
    workProjects := if wh ≠ "" then parseWorkHistory wh else []
    shelfNumber := if sn ≠ "" then sn else "Unknown"
    boxSize := if bs ≠ "" then bs else "Unknown"
    previewImage := pv
    isLocked := locked
    sourceRows := [idx] }

/-- Folding a continuation row (empty plate number, some data) into the
current plate: extend `sourceRows` and the work-history collections, set
`shelfNumber` only while it is unset/`"Unknown"`, set `previewImage` only
while it is empty. -/
def contPlate (p : Plate) (wh sn pv : String) (idx : Nat) : Plate :=
  { p with
    sourceRows := p.sourceRows ++ [idx]
    workHistory := if wh ≠ "" then p.workHistory ++ [wh] else p.workHistory
    workProjects :=
      if wh ≠ "" then p.workProjects ++ parseWorkHistory wh else p.workProjects
    shelfNumber :=
      if p.shelfNumber = "" || p.shelfNumber = "Unknown" then
        if sn ≠ "" then sn else p.shelfNumber
      else p.shelfNumber
    previewImage :=
      if p.previewImage = "" && pv ≠ "" then pv else p.previewImage }

/-- The main grouping loop. `idx` is the JS `currentRowIndex` (incremented at
the top of each iteration), `cur` the JS `currentPlate`; a finished plate is
pushed when the next one starts and the last one is flushed at the end. -/
def groupGo (lookup : Nat → Nat → Option Cell) (cm : ColIdx) :
    Nat → Option Plate → List (List String) → List Plate
  | _, cur, [] => cur.toList
  | idx, cur, row :: rest =>
    if isEmptyRow row then groupGo lookup cm (idx + 1) cur rest
    else
      let pn := cellAt row cm.plateNumber
      let wh := cellAt row cm.workHistory
      let sn := cellAt row cm.shelfNumber
      let pv := cellAt row cm.previewImage
      let bs := cellAt row cm.boxSize
      if pn ≠ "" then
        let locked := lockStatus (lookup idx cm.plateNumber) pn
        cur.toList ++
          groupGo lookup cm (idx + 1) (some (mkPlate pn wh sn pv bs locked (idx + 1))) rest
      else
        match cur with
        | some p => groupGo lookup cm (idx + 1) (some (contPlate p wh sn pv (idx + 1))) rest
        | none => groupGo lookup cm (idx + 1) none rest

/-- The post-grouping pass that fills the derived fields. -/
def finalizePlate (p : Plate) : Plate :=
  { p with
    workHistoryCombined := joinWith "; " p.workHistory
    rowCount := p.sourceRows.length
    firstRow := p.sourceRows.headD 0
    lastRow := p.sourceRows.getLastD 0 }

/-- `ExcelProcessor.groupRowsByMergedPlates`: `currentRowIndex` starts at 2,
so the first data row has index 3; `hasRedBackground(ws, row, col)` looks the
cell up at the 0-based row `row - 1`, which the loop reaches as `idx` before
incrementing. -/
def groupRowsByMergedPlates (lookup : Nat → Nat → Option Cell) (cm : ColIdx)
    (dataRows : List (List String)) : List Plate :=
  (groupGo lookup cm 2 none dataRows).map finalizePlate

/-- The nonempty trimmed plate-number cells of the data rows, in row order. -/
def plateNumberCells (cm : ColIdx) (dataRows : List (List String)) :
    List String :=
  dataRows.filterMap fun r =>
    if cellAt r cm.plateNumber = "" then none else some (cellAt r cm.plateNumber)

/-! ### Folder validation, `utils/ModelFolderValidator.js` -/

/-- The validator's model-extension set (`this.modelExtensions`). -/
def validatorModelExts : List String :=
  [".x_t", ".step", ".stp", ".iges", ".igs", ".dwg", ".psmodel"]

/-- The validator's image-extension set (`this.imageExtensions`). -/
def validatorImageExts : List String :=
  [".png", ".jpg", ".jpeg"]

/-- Validator-side file classification: is this file a model file? -/
def validatorIsModelFile (file : String) : Bool :=
  validatorModelExts.contains (extLower file)

/-- Validator-side file classification: is this file an image file? -/
def validatorIsImageFile (file : String) : Bool :=
  validatorImageExts.contains (extLower file)

/-- Result of `validateSingleFolder`. -/
structure SingleResult where
  valid : Bool
  modelCount : Nat
  imageCount : Nat
  modelFiles : List String
  imageFiles : List String
  problems : List String
deriving DecidableEq, Repr

/-- One file of the `validateSingleFolder` loop: bump the model and image
counts (two independent `if`s, exactly as in the JS). The state is
`(modelCount, imageCount, modelFiles, imageFiles)`. -/
def singleStep (acc : Nat × Nat × List String × List String) (file : String) :
    Nat × Nat × List String × List String :=
  let acc1 := if validatorIsModelFile file then
    (acc.1 + 1, acc.2.1, acc.2.2.1 ++ [file], acc.2.2.2) else acc
  if validatorIsImageFile file then
    (acc1.1, acc1.2.1 + 1, acc1.2.2.1, acc1.2.2.2 ++ [file]) else acc1

/-- `ModelFolderValidator.validateSingleFolder`: count model and image files
(two independent `if`s per file), then report problems; valid iff exactly one
of each. -/
def validateSingleFolder (files : List String) : SingleResult :=
  let counts := files.foldl singleStep (0, 0, [], [])
  let modelCount := counts.1
  let imageCount := counts.2.1
  let modelFiles := counts.2.2.1
  let imageFiles := counts.2.2.2
  let problems :=
    (if modelCount = 0 then ["No model file found"]
     else if modelCount > 1 then
       ["Multiple model files found: " ++ joinWith ", " modelFiles]
     else []) ++
    (if imageCount = 0 then ["No preview image found"]
     else if imageCount > 1 then
       ["Multiple images found: " ++ joinWith ", " imageFiles]
     else [])
  { valid := modelCount == 1 && imageCount == 1
    modelCount := modelCount, imageCount := imageCount
    modelFiles := modelFiles, imageFiles := imageFiles, problems := problems }

/-- A directory entry as returned by `fs.readdir(.., {withFileTypes: true})`,
together with the files the folder contains. -/
structure FsEntry where
  name : String
  isDir : Bool
  files : List String
deriving DecidableEq, Repr

/-- One entry of the validator's `issues` array. -/
structure VIssue where
  folder : String
  path : String
  modelCount : Nat
  imageCount : Nat
  problems : List String
deriving DecidableEq, Repr

/-- What `validateModelFolders` returns. -/
structure ValidationResult where
  valid : Bool
  totalFolders : Nat
  validFolders : Nat
  invalidFolders : Nat
  issues : List VIssue
deriving DecidableEq, Repr

/-- The issue object `validateModelFolders` pushes for an invalid folder. -/
def mkIssue (root : String) (f : FsEntry) : VIssue :=
  let r := validateSingleFolder f.files
  { folder := f.name, path := root ++ "/" ++ f.name,
    modelCount := r.modelCount, imageCount := r.imageCount,
    problems := r.problems }

/-- One folder of the `validateModelFolders` loop: count it valid or push
one issue. -/
def folderStep (root : String) (acc : List VIssue × Nat) (f : FsEntry) :
    List VIssue × Nat :=
  if (validateSingleFolder f.files).valid then (acc.1, acc.2 + 1)
  else (acc.1 ++ [mkIssue root f], acc.2)

/-- `ModelFolderValidator.validateModelFolders`: validate every directory
entry in order, pushing one issue per invalid folder. -/
def validateModelFolders (root : String) (entries : List FsEntry) :
    ValidationResult :=
  let folders := entries.filter fun e => e.isDir
  let scanned := folders.foldl (folderStep root) ([], 0)
  { valid := scanned.1.isEmpty
    totalFolders := folders.length
    validFolders := scanned.2
    invalidFolders := scanned.1.length
    issues := scanned.1 }

/-! ### Model-file scanning, `convert_excel_to_json.js` `scanModelFiles` -/

/-- The scanner's model-format set (`modelFormats`, no `.psmodel`). -/
def scannerModelFormats : List String :=
  [".x_t", ".step", ".stp", ".iges", ".igs", ".dwg"]

/-- The scanner's image-format set (`imageFormats`, with `.bmp`/`.gif`). -/
def scannerImageFormats : List String :=
  [".jpg", ".jpeg", ".png", ".bmp", ".gif"]

/-- Scanner-side file classification: is this file a model file? -/
def scannerIsModelFile (file : String) : Bool :=
  scannerModelFormats.contains (extLower file)

/-- Scanner-side file classification: is this file an image file? -/
def scannerIsImageFile (file : String) : Bool :=
  scannerImageFormats.contains (extLower file)

/-- A model-file descriptor pushed by `scanModelFiles`. -/
structure ModelFile where
  folder : String
  fileName : String
  relativePath : String
  fullPath : String
deriving DecidableEq, Repr

/-- One entry of `scanModelFiles`' `validationIssues` (the `models`/`images`
payload lists are empty when the JS object lacks them). -/
structure ScanIssue where
  itype : String
  folder : String
  message : String
  payload : List String
deriving DecidableEq, Repr

/-- `scanModelFiles`: per directory, classify files, push global model
descriptors in file order, and push per-folder issues (model issues first,
then image issues — up to two per folder). -/
def scanModelFiles (modelsDir : String) (entries : List FsEntry) :
    List ModelFile × List ScanIssue :=
  entries.foldl
    (fun (acc : List ModelFile × List ScanIssue) e =>
      if e.isDir then
        let models := e.files.filter scannerIsModelFile
        let images := e.files.filter scannerIsImageFile
        let newDescriptors := models.map fun f =>
          { folder := e.name, fileName := f,
            relativePath := e.name ++ "/" ++ f,
            fullPath := modelsDir ++ "/" ++ e.name ++ "/" ++ f : ModelFile }
        let modelIssues : List ScanIssue :=
          if models.length = 0 then
            [{ itype := "MISSING_MODEL", folder := e.name,
               message := "No 3D model file found in folder \"" ++ e.name ++ "\"",
               payload := [] }]
          else if models.length > 1 then
            [{ itype := "MULTIPLE_MODELS", folder := e.name,
               message := "Multiple model files (" ++ toString models.length ++
                 ") found in folder \"" ++ e.name ++ "\": " ++
                 joinWith ", " models,
               payload := models }]
          else []
        let imageIssues : List ScanIssue :=
          if images.length = 0 then
            [{ itype := "MISSING_IMAGE", folder := e.name,
               message := "No preview image found in folder \"" ++ e.name ++ "\"",
               payload := [] }]
          else if images.length > 1 then
            [{ itype := "MULTIPLE_IMAGES", folder := e.name,
               message := "Multiple images (" ++ toString images.length ++
                 ") found in folder \"" ++ e.name ++ "\": " ++
                 joinWith ", " images,
               payload := images }]
          else []
        (acc.1 ++ newDescriptors, acc.2 ++ modelIssues ++ imageIssues)
      else acc)
    ([], [])

/-! ### Plate/model matching, `convert_excel_to_json.js` `matchPlatesWithModels` -/

/-- The output record built per plate (the nondeterministic generated `id`
and the timestamped metadata are outside the model; `modelFiles` entries are
`(fileName, relativePath, isPrimary)`). -/
structure PlateOut where
  plateNumber : String
  workHistory : String
  workHistoryEntries : List String
  workProjects : List WorkProject
  shelf : String
  shelfNumber : String
  boxSize : String
  isLocked : Bool
  currentModelFile : Option String
  modelFiles : List (String × String × Bool)
  health : String
  occupancy : String
  notes : String
  previewImage : Option String
  modelStatus : Option String
deriving DecidableEq, Repr

/-- JS `imageMap[key]` on an association-list model of the image map. -/
def lookupImage (imageMap : List (String × String)) (key : String) :
    Option String :=
  (imageMap.find? fun kv => kv.1 == key).map fun kv => kv.2

/-- The body of the `matchPlatesWithModels` loop for one plate: strict
`m.folder === plateNumber` filtering, first match linked, a `modelStatus`
note when nothing matches. -/
def matchOnePlate (modelFiles : List ModelFile)
    (imageMap : List (String × String)) (pd : Plate) : PlateOut :=
  let hits := modelFiles.filter fun m => m.folder == pd.plateNumber
  let base : PlateOut :=
    { plateNumber := pd.plateNumber
      workHistory := pd.workHistoryCombined
      workHistoryEntries := pd.workHistory
      workProjects := pd.workProjects
      shelf := pd.shelfNumber
      shelfNumber := pd.shelfNumber
      boxSize := pd.boxSize
      isLocked := pd.isLocked
      currentModelFile := none
      modelFiles := []
      health := if pd.isLocked then "locked"
        else if pd.workHistory.length > 0 then "used" else "new"
      occupancy := "free"
      notes := ""
      previewImage := lookupImage imageMap pd.plateNumber
      modelStatus := none }
  match hits with
  | m :: _ =>
    { base with
      currentModelFile := some m.relativePath
      modelFiles := hits.enum.map fun im =>
        (im.2.fileName, im.2.relativePath, im.1 == 0) }
  | [] =>
    { base with
      modelStatus := some ("No model folder found for plate " ++ pd.plateNumber) }

/-- `matchPlatesWithModels`: one output record per Excel plate, in order. -/
def matchPlatesWithModels (excelData : List Plate)
    (modelFiles : List ModelFile) (imageMap : List (String × String)) :
    List PlateOut :=
  excelData.map (matchOnePlate modelFiles imageMap)

/-! ### Pipeline control flow, `convert_excel_to_json.js` `convertExcelToJson` -/

/-- The abstract inputs of one `convertExcelToJson` run: whether
`fs.access(modelsSubPath)` succeeds, the directory entries the validator and
the scanner see, the processed Excel plates, the extracted image map, and the
timestamp used in the output filename. -/
structure ConvertEnv where
  modelsSubPathExists : Bool
  validatorRoot : String
  validatorEntries : List FsEntry
  scanDir : String
  scanEntries : List FsEntry
  excelData : List Plate
  imageMap : List (String × String)
  timestamp : String
deriving DecidableEq, Repr

/-- How a `convertExcelToJson` run ends: normal completion, a thrown error,
or `process.exit(1)`. -/
inductive ConvOutcome where
  | completed (plates : List PlateOut)
  | errored (msg : String)
  | exited (code : Nat)
deriving DecidableEq, Repr

/-- The pipeline tail after the folder-structure gate: scan model files,
stop (`process.exit(1)`) on scan issues, otherwise match plates and write the
inventory JSON. The first component lists the output dataset files written. -/
def convertAfterGate (env : ConvertEnv) : List String × ConvOutcome :=
  let scan := scanModelFiles env.scanDir env.scanEntries
  if !scan.2.isEmpty then ([], ConvOutcome.exited 1)
  else
    let plateConfig := matchPlatesWithModels env.excelData scan.1 env.imageMap
    (["clamping_plates_inventory_" ++ env.timestamp ++ ".json"],
      ConvOutcome.completed plateConfig)

/-- `convertExcelToJson`: when the models subfolder exists, run the
Scanner/Validator and abort (throw) on `valid === false` before anything is
written; an absent subfolder (ENOENT) skips validation. -/
def convertExcelToJson (env : ConvertEnv) : List String × ConvOutcome :=
  if env.modelsSubPathExists then
    let vr := validateModelFolders env.validatorRoot env.validatorEntries
    if !vr.valid then
      ([], ConvOutcome.errored
        "Model folder validation failed - fix folder structure and try again")
    else convertAfterGate env
  else convertAfterGate env

/-! ## Theorems -/

/-- A plate numbered "12" for the exact-match scenario. -/
def plateTwelve : Plate :=
  { plateNumber := "12", workHistory := [], workProjects := [],
    shelfNumber := "", boxSize := "", previewImage := "", isLocked := false,
    sourceRows := [] }

/-- A model-file descriptor living in a folder literally named "12A". -/
def modelInTwelveA : ModelFile :=
  { folder := "12A", fileName := "12A.step", relativePath := "12A/12A.step",
    fullPath := "/models/12A/12A.step" }

/-- Claim C3: the Matcher links a model iff some descriptor's folder equals
the plate number exactly; the first match is linked; otherwise the link is
null with a "No model folder found for plate <n>" status; plate "12" does not
link to folder "12A". -/
theorem claim_C3_theorem (pd : Plate) (mfs : List ModelFile)
    (im : List (String × String)) :
    ((matchOnePlate mfs im pd).currentModelFile.isSome
        = mfs.any fun m => m.folder == pd.plateNumber)
    ∧ ((matchOnePlate mfs im pd).currentModelFile
        = ((mfs.filter fun m => m.folder == pd.plateNumber).head?).map
            fun m => m.relativePath)
    ∧ ((matchOnePlate mfs im pd).modelStatus
        = if (mfs.filter fun m => m.folder == pd.plateNumber) = [] then
            some ("No model folder found for plate " ++ pd.plateNumber)
          else none)
    ∧ (matchOnePlate [modelInTwelveA] [] plateTwelve).currentModelFile = none
    ∧ (matchOnePlate [modelInTwelveA] [] plateTwelve).modelStatus
        = some "No model folder found for plate 12" := by
  have hany : (mfs.any fun m => m.folder == pd.plateNumber)
      = !(mfs.filter fun m => m.folder == pd.plateNumber).isEmpty := by
    cases hm : mfs.filter fun m => m.folder == pd.plateNumber with
    | nil =>
      simp only [List.isEmpty_nil, Bool.not_true]
      rw [List.filter_eq_nil_iff] at hm
      simp only [List.any_eq_true, Bool.eq_false_iff, ne_eq]
      rintro ⟨m, hmem, hf⟩
      exact hm m hmem hf
    | cons m ms =>
      have hmem : m ∈ mfs.filter fun m => m.folder == pd.plateNumber := by
        rw [hm]; exact List.mem_cons_self m ms
      have h2 := List.mem_filter.mp hmem
      simp only [List.isEmpty_cons, Bool.not_false, List.any_eq_true]
      exact ⟨m, h2.1, h2.2⟩
  refine ⟨?_, ?_, ?_, by decide, by decide⟩ <;>
    cases hm : mfs.filter fun m => m.folder == pd.plateNumber <;>
      simp [matchOnePlate, hm, hany]

/-- Claim C9 counterexample: the validator and the scanner disagree on
`.psmodel` (model only for the validator) and on `.bmp` (image only for the
scanner); a folder that passes validation with a `.psmodel` model yields no
model descriptor at all. -/
theorem claim_C9_counterexample :
    validatorIsModelFile "a.psmodel" = true
    ∧ scannerIsModelFile "a.psmodel" = false
    ∧ scannerIsImageFile "b.bmp" = true
    ∧ validatorIsImageFile "b.bmp" = false
    ∧ (validateSingleFolder ["a.psmodel", "b.png"]).valid = true
    ∧ (scanModelFiles "m" [⟨"7", true, ["a.psmodel", "b.png"]⟩]).1 = []
      := by decide

/-- Claim C9 (amended): outside the extensions `.psmodel` (validator-only
model format) and `.bmp`/`.gif` (scanner-only image formats), the validator's
and the scanner's file classifications agree. -/
theorem claim_C9_theorem (file : String)
    (h1 : extLower file ≠ ".psmodel") (h2 : extLower file ≠ ".bmp")
    (h3 : extLower file ≠ ".gif") :
    validatorIsModelFile file = scannerIsModelFile file
    ∧ validatorIsImageFile file = scannerIsImageFile file := by
  constructor
  · unfold validatorIsModelFile scannerIsModelFile validatorModelExts
      scannerModelFormats List.contains
    rw [List.elem_eq_mem, List.elem_eq_mem, decide_eq_decide]
    simp only [List.mem_cons, List.not_mem_nil, or_false]
    tauto
  · unfold validatorIsImageFile scannerIsImageFile validatorImageExts
      scannerImageFormats List.contains
    rw [List.elem_eq_mem, List.elem_eq_mem, decide_eq_decide]
    simp only [List.mem_cons, List.not_mem_nil, or_false]
    tauto

/-- Witness for the amended claim C9 at the concrete file "a.step". -/
theorem claim_C9_witness :
    (extLower "a.step" ≠ ".psmodel" ∧ extLower "a.step" ≠ ".bmp"
      ∧ extLower "a.step" ≠ ".gif")
    ∧ (validatorIsModelFile "a.step" = scannerIsModelFile "a.step"
      ∧ validatorIsImageFile "a.step" = scannerIsImageFile "a.step") :=
  ⟨⟨by decide, by decide, by decide⟩,
    claim_C9_theorem "a.step" (by decide) (by decide) (by decide)⟩

/-- Claim C2: with the models subfolder present and the Scanner/Validator
reporting `valid = false`, the pipeline writes no output dataset file and
ends in the thrown validation error. -/
theorem claim_C2_theorem (env : ConvertEnv)
    (hex : env.modelsSubPathExists = true)
    (hval : (validateModelFolders env.validatorRoot env.validatorEntries).valid
      = false) :
    (convertExcelToJson env).1 = []
    ∧ (convertExcelToJson env).2 = ConvOutcome.errored
        "Model folder validation failed - fix folder structure and try again" := by
  unfold convertExcelToJson
  rw [hex]
  simp [hval]

/-- A pipeline environment whose validator sees one folder with no model and
no image file. -/
def envBadFolder : ConvertEnv :=
  { modelsSubPathExists := true, validatorRoot := "/data/models/models",
    validatorEntries := [{ name := "1", isDir := true, files := [] }],
    scanDir := "/data/models", scanEntries := [], excelData := [],
    imageMap := [], timestamp := "t" }

/-- Witness for claim C2 on a concrete failing environment. -/
theorem claim_C2_witness :
    (envBadFolder.modelsSubPathExists = true
      ∧ (validateModelFolders envBadFolder.validatorRoot
          envBadFolder.validatorEntries).valid = false)
    ∧ ((convertExcelToJson envBadFolder).1 = []
      ∧ (convertExcelToJson envBadFolder).2 = ConvOutcome.errored
          "Model folder validation failed - fix folder structure and try again") :=
  ⟨⟨by decide, by decide⟩,
    claim_C2_theorem envBadFolder (by decide) (by decide)⟩

/-- The number of files of a folder the validator classifies as models. -/
def countModels (files : List String) : Nat :=
  (files.filter validatorIsModelFile).length

/-- The number of files of a folder the validator classifies as images. -/
def countImages (files : List String) : Nat :=
  (files.filter validatorIsImageFile).length

/-- Closed form of the `validateSingleFolder` counting loop. -/
lemma singleStep_fold (files : List String) :
    ∀ (mc ic : Nat) (mfs ifs : List String),
      files.foldl singleStep (mc, ic, mfs, ifs)
        = (mc + countModels files, ic + countImages files,
           mfs ++ files.filter validatorIsModelFile,
           ifs ++ files.filter validatorIsImageFile) := by
  induction files with
  | nil => intro mc ic mfs ifs; simp [countModels, countImages]
  | cons f fs ih =>
    intro mc ic mfs ifs
    rw [List.foldl_cons]
    cases hm : validatorIsModelFile f <;> cases hi : validatorIsImageFile f
    all_goals
      simp [singleStep, hm, hi, countModels, countImages, List.filter_cons,
        ih, Prod.mk.injEq, List.append_assoc]
      try omega

/-- The `validateSingleFolder` counts are the classification counts, and
validity is exactly "one model and one image". -/
lemma validateSingleFolder_spec (files : List String) :
    (validateSingleFolder files).modelCount = countModels files
    ∧ (validateSingleFolder files).imageCount = countImages files
    ∧ (validateSingleFolder files).valid
        = (countModels files == 1 && countImages files == 1) := by
  have h := singleStep_fold files 0 0 [] []
  simp only [Nat.zero_add, List.nil_append] at h
  unfold validateSingleFolder
  rw [h]
  simp

/-- Closed form of the `validateModelFolders` folder loop. -/
lemma folderStep_fold (root : String) (folders : List FsEntry) :
    ∀ (acc : List VIssue) (n : Nat),
      folders.foldl (folderStep root) (acc, n)
        = (acc ++ (folders.filter fun f =>
              !(validateSingleFolder f.files).valid).map (mkIssue root),
           n + (folders.filter fun f =>
              (validateSingleFolder f.files).valid).length) := by
  induction folders with
  | nil => intro acc n; simp
  | cons f fs ih =>
    intro acc n
    by_cases hv : (validateSingleFolder f.files).valid
    all_goals
      simp [List.foldl_cons, folderStep, hv, ih, List.filter_cons]
      try omega

/-- Claim C4: the validator visits every immediate subfolder (one issue per
failing folder, in scan order, even when a folder fails on both counts),
reports a folder valid iff it has exactly one model file and one image file,
and the issue count is the failing-folder count. -/
theorem claim_C4_theorem (root : String) (entries : List FsEntry) :
    ((validateModelFolders root entries).issues.map fun i => i.folder)
        = ((entries.filter fun e => e.isDir).filter fun f =>
            !(validateSingleFolder f.files).valid).map (fun f => f.name)
    ∧ (validateModelFolders root entries).invalidFolders
        = ((entries.filter fun e => e.isDir).filter fun f =>
            !(validateSingleFolder f.files).valid).length
    ∧ (validateModelFolders root entries).validFolders
        = ((entries.filter fun e => e.isDir).filter fun f =>
            (validateSingleFolder f.files).valid).length
    ∧ (validateModelFolders root entries).totalFolders
        = (entries.filter fun e => e.isDir).length
    ∧ (∀ files, (validateSingleFolder files).valid
        = (countModels files == 1 && countImages files == 1))
    ∧ (validateModelFolders root entries).valid
        = (validateModelFolders root entries).issues.isEmpty
    ∧ (validateModelFolders "r" [⟨"b", true, []⟩]).issues.length = 1 := by
  have h := folderStep_fold root (entries.filter fun e => e.isDir) [] 0
  simp only [List.nil_append, Nat.zero_add] at h
  unfold validateModelFolders
  simp only [h]
  refine ⟨?_, ?_, ?_, ?_, fun files => (validateSingleFolder_spec files).2.2,
    ?_, by decide⟩ <;> try trivial
  all_goals try simp
  all_goals
    intro f _ _ _
    simp [mkIssue]

/-- A nonempty string has positive length. -/
lemma length_pos_of_ne_empty (s : String) (h : s ≠ "") : 0 < s.length := by
  cases s with
  | mk data =>
    cases data with
    | nil => exact absurd rfl h
    | cons c cs => simp [String.length]

/-- The empty segment matches nothing. -/
lemma matchEntry_empty : matchEntry "" = none := rfl

/-- Closed form of the `parseWorkHistory` loop: the empty segments are
dropped, every other segment contributes exactly its entry, in order. -/
lemma parseStep_fold (parts : List String) :
    ∀ acc, parts.foldl parseStep acc
      = acc ++ (parts.filter fun p => p ≠ "").map entryOfSegment := by
  induction parts with
  | nil => intro acc; simp
  | cons part rest ih =>
    intro acc
    rw [List.foldl_cons, ih, List.filter_cons]
    by_cases hp : part = ""
    · subst hp
      have hstep : parseStep acc "" = acc := rfl
      simp [hstep]
    · have hkeep : (decide ¬(part = "")) = true := by simp [hp]
      cases hm : matchEntry part with
      | some pr =>
        simp [parseStep, hm, entryOfSegment, hp, List.append_assoc]
      | none =>
        have hlen : 0 < part.length := length_pos_of_ne_empty part hp
        simp [parseStep, hm, entryOfSegment, hp, hlen, List.append_assoc]

/-- Claim C6: the tokenizer splits on `,`/`;`, trims, drops exactly the
segments that trim to nothing, and yields exactly one entry per remaining
segment — the regex captures on `^([A-Z]):\s*(.+)$` matches, the fallback
`{projectCode := null}` entry otherwise. -/
theorem claim_C6_theorem (workHistory : String) :
    parseWorkHistory workHistory
      = (((splitWorkSeps workHistory).map jsTrim).filter fun part =>
          part ≠ "").map entryOfSegment := by
  unfold parseWorkHistory
  rw [parseStep_fold]
  simp

/-- The claim-side red condition pieces, as fragments of
`hasRedBackground`: a solid-pattern fill with red foreground color. -/
def solidRedFg (cell : Option Cell) : Bool :=
  match cell with
  | none => false
  | some c =>
    match c.s with
    | none => false
    | some style =>
      match style.fill with
      | none => false
      | some fill =>
        match fill.fgColor with
        | some fg => fill.patternType == some "solid" && isRedOpt (colorValue fg)
        | none => false

/-- A fill background color that is red (any pattern type). -/
def fillBgRed (cell : Option Cell) : Bool :=
  match cell with
  | none => false
  | some c =>
    match c.s with
    | none => false
    | some style =>
      match style.fill with
      | none => false
      | some fill =>
        match fill.bgColor with
        | some bg => isRedOpt (colorValue bg)
        | none => false

/-- A direct style background color that is red. -/
def styleBgRed (cell : Option Cell) : Bool :=
  match cell with
  | none => false
  | some c =>
    match c.s with
    | none => false
    | some style =>
      match style.bgColor with
      | some bg => isRedOpt (colorValue bg)
      | none => false

/-- Claim C5 (amended): a triggering row is locked iff the cell has a
solid-pattern fill with red foreground color, or a red fill background color
(any pattern type), or a red direct style background color, or the plate
number is in the manual override list; with no style metadata the override
list alone decides. -/
theorem claim_C5_theorem (cell : Option Cell) (pn : String) :
    (lockStatus cell pn
      = (solidRedFg cell || fillBgRed cell || styleBgRed cell
          || isManuallyLocked pn))
    ∧ lockStatus none pn = isManuallyLocked pn := by
  constructor
  · rcases cell with _ | ⟨v, _ | ⟨_ | ⟨pt, _ | fgc, _ | fbgc⟩, _ | bgc⟩⟩ <;>
      simp [lockStatus, hasRedBackgroundCell, solidRedFg, fillBgRed,
        styleBgRed, Bool.or_assoc]
  · simp [lockStatus, hasRedBackgroundCell]

/-- A fill with a non-solid pattern and a red background color. -/
def grayRedFill : XFill :=
  { patternType := some "gray125", fgColor := none,
    bgColor := some { rgb := some "FFFF0000", theme := none, indexed := none } }

/-- A plate-number cell styled with `grayRedFill` only. -/
def redBgNonSolidCell : Cell :=
  { v := some "1", s := some { fill := some grayRedFill, bgColor := none } }

/-- The style lookup placing `redBgNonSolidCell` at the first data row's
plate-number column (0-based row 2, column 0). -/
def lookupRedBg : Nat → Nat → Option Cell := fun r c =>
  if r = 2 ∧ c = 0 then some redBgNonSolidCell else none

/-- Claim C5 counterexample: plate "1" has only a non-solid fill (pattern
"gray125") with a red background color, and is not in the override list, yet
the grouper marks it locked — so "solid pattern … or override" does not
characterise `isLocked`. -/
theorem claim_C5_counterexample :
    ((groupRowsByMergedPlates lookupRedBg colIdxCanonical [["1"]]).map
        fun p => p.isLocked) = [true]
    ∧ grayRedFill.patternType ≠ some "solid"
    ∧ redBgNonSolidCell.s = some { fill := some grayRedFill, bgColor := none }
    ∧ isManuallyLocked "1" = false := by decide

/-- Claim C7 (amended): the resolver never fails and always hands back the
fixed canonical layout with header-row marker 2 — whatever the detection
outcome. -/
theorem claim_C7_theorem (jsonData : List (List String)) :
    (findHeaderRow jsonData).rowIndex = 2
    ∧ (findHeaderRow jsonData).columnMap.plateNumber = some 0
    ∧ (findHeaderRow jsonData).columnMap.workHistory = some 1
    ∧ (findHeaderRow jsonData).columnMap.shelfNumber = some 2
    ∧ (findHeaderRow jsonData).columnMap.previewImage = some 3
    ∧ (findHeaderRow jsonData).columnMap.boxSize = some 4 := by
  unfold findHeaderRow
  cases detectedHeaderIndex jsonData <;>
    simp [canonicalMap, canonicalMapLegacy]

/-- A worksheet whose header row sits at index 0. -/
def headerAtZero : List (List String) :=
  [["készülék", "projekt", "raktár", "kép"]]

/-- Claim C7 counterexample: with the header detected at row 0, the returned
marker is still the hard-coded 2 (data rows start at index 3), not the row
after the detected header. -/
theorem claim_C7_counterexample :
    detectedHeaderIndex headerAtZero = some 0
    ∧ (findHeaderRow headerAtZero).rowIndex = 2
    ∧ (findHeaderRow headerAtZero).rowIndex + 1 ≠ 0 + 1 := by decide

/-- Trimming the empty string. -/
lemma jsTrim_empty : jsTrim "" = "" := rfl

/-- Every cell of a (completely) empty row trims to the empty string — also
out-of-range cells, which default to `""`. -/
lemma cellAt_of_empty :
    ∀ (row : List String) (i : Nat), isEmptyRow row = true → cellAt row i = ""
  | [], i, _ => by cases i <;> rfl
  | r :: rs, i, h => by
    have hall : ((r :: rs).all fun c => jsTrim c = "") = true := by
      unfold isEmptyRow at h
      simpa using h
    rw [List.all_cons, Bool.and_eq_true] at hall
    cases i with
    | zero =>
      have : jsTrim r = "" := of_decide_eq_true hall.1
      simpa [cellAt, List.getD] using this
    | succ n =>
      have hrs : isEmptyRow rs = true := by
        unfold isEmptyRow
        rw [hall.2]
        simp
      simpa [cellAt, List.getD] using cellAt_of_empty rs n hrs

/-- The trivial style lookup (a style-free reader: no cell carries style
metadata). -/
def noStyles : Nat → Nat → Option Cell := fun _ _ => none

/-- Mapping plate numbers over the grouping loop: one plate per nonempty
plate-number cell, in row order, with the pending plate flushed in front. -/
lemma groupGo_map_plateNumber (lookup : Nat → Nat → Option Cell) (cm : ColIdx) :
    ∀ (rows : List (List String)) (idx : Nat) (cur : Option Plate),
      ((groupGo lookup cm idx cur rows).map fun p => p.plateNumber)
        = (cur.map fun p => p.plateNumber).toList
          ++ rows.filterMap fun r =>
              if cellAt r cm.plateNumber = "" then none
              else some (cellAt r cm.plateNumber) := by
  intro rows
  induction rows with
  | nil => intro idx cur; cases cur <;> simp [groupGo]
  | cons row rest ih =>
    intro idx cur
    simp only [groupGo]
    by_cases hemp : isEmptyRow row = true
    · rw [if_pos hemp]
      have hpn : cellAt row cm.plateNumber = "" := cellAt_of_empty _ _ hemp
      rw [ih, List.filterMap_cons]
      simp [hpn]
    · rw [if_neg hemp]
      by_cases hpn : cellAt row cm.plateNumber = ""
      · rw [if_neg (by simpa using hpn)]
        cases cur with
        | none =>
          rw [ih]
          simp [List.filterMap_cons, hpn, contPlate]
        | some p =>
          rw [ih]
          simp [List.filterMap_cons, hpn, contPlate]
      · rw [if_pos (by simpa using hpn)]
        rw [List.map_append, ih]
        cases cur <;> simp [List.filterMap_cons, hpn, mkPlate]

/-- Claim C1 (amended): the grouper emits exactly one record per row whose
plate-number cell is nonempty, and the records carry those cell values in
row order (duplicates included — there is no deduplication). -/
theorem claim_C1_theorem (lookup : Nat → Nat → Option Cell) (cm : ColIdx)
    (dataRows : List (List String)) :
    ((groupRowsByMergedPlates lookup cm dataRows).map fun p => p.plateNumber)
        = plateNumberCells cm dataRows
    ∧ (groupRowsByMergedPlates lookup cm dataRows).length
        = (plateNumberCells cm dataRows).length := by
  have h := groupGo_map_plateNumber lookup cm dataRows 2 none
  simp only [Option.map_none', Option.toList_none, List.nil_append] at h
  have hmain :
      ((groupRowsByMergedPlates lookup cm dataRows).map fun p => p.plateNumber)
        = plateNumberCells cm dataRows := by
    unfold groupRowsByMergedPlates plateNumberCells
    rw [List.map_map]
    rw [show ((fun p => p.plateNumber) ∘ finalizePlate)
        = fun p : Plate => p.plateNumber from funext fun p => rfl]
    exact h
  refine ⟨hmain, ?_⟩
  have := congrArg List.length hmain
  simpa using this

/-- Two rows carrying the same plate number "5". -/
def rowsDup : List (List String) := [["5"], ["5"]]

/-- Claim C1 counterexample: two nonempty plate-number cells with the same
value produce two records, while there is only one distinct value. -/
theorem claim_C1_counterexample :
    (groupRowsByMergedPlates noStyles colIdxCanonical rowsDup).length = 2
    ∧ ((groupRowsByMergedPlates noStyles colIdxCanonical rowsDup).map
        fun p => p.plateNumber) = ["5", "5"]
    ∧ (plateNumberCells colIdxCanonical rowsDup).dedup.length = 1
    ∧ (2 : Nat) ≠ 1 := by decide

/-- Appending the strictly larger `n + 1` keeps a `<`-chain a chain. -/
lemma chainLt_snoc (l : List Nat) (n : Nat) :
    List.Chain' (· < ·) l → (∀ x ∈ l, x ≤ n) →
      List.Chain' (· < ·) (l ++ [n + 1]) := by
  induction l with
  | nil => intro _ _; simp
  | cons a t ih =>
    intro hc hb
    obtain ⟨hab, hct⟩ := List.chain'_cons'.mp hc
    rw [List.cons_append, List.chain'_cons']
    refine ⟨?_, ih hct fun x hx => hb x (List.mem_cons_of_mem a hx)⟩
    intro h hh
    cases t with
    | nil =>
      simp at hh
      subst hh
      exact Nat.lt_succ_of_le (hb a (List.mem_cons_self a []))
    | cons b t2 =>
      simp at hh
      subst hh
      exact hab _ (by simp)

/-- Invariant of the grouping loop: every emitted plate has a nonempty,
strictly increasing `sourceRows` list. -/
lemma groupGo_sourceRows (lookup : Nat → Nat → Option Cell) (cm : ColIdx) :
    ∀ (rows : List (List String)) (idx : Nat) (cur : Option Plate),
      (∀ p, cur = some p →
        p.sourceRows ≠ [] ∧ List.Chain' (· < ·) p.sourceRows ∧
          ∀ x ∈ p.sourceRows, x ≤ idx) →
      ∀ q ∈ groupGo lookup cm idx cur rows,
        q.sourceRows ≠ [] ∧ List.Chain' (· < ·) q.sourceRows := by
  intro rows
  induction rows with
  | nil =>
    intro idx cur hcur q hq
    cases cur with
    | none => simp [groupGo] at hq
    | some p =>
      simp only [groupGo, Option.toList_some, List.mem_singleton] at hq
      subst hq
      exact ⟨(hcur q rfl).1, (hcur q rfl).2.1⟩
  | cons row rest ih =>
    intro idx cur hcur q hq
    simp only [groupGo] at hq
    by_cases hemp : isEmptyRow row = true
    · rw [if_pos hemp] at hq
      exact ih (idx + 1) cur
        (fun p hp => ⟨(hcur p hp).1, (hcur p hp).2.1,
          fun x hx => Nat.le_succ_of_le ((hcur p hp).2.2 x hx)⟩) q hq
    · rw [if_neg hemp] at hq
      by_cases hpn : cellAt row cm.plateNumber = ""
      · rw [if_neg (by simpa using hpn)] at hq
        cases cur with
        | none => exact ih (idx + 1) none (by intro p hp; cases hp) q hq
        | some p =>
          refine ih (idx + 1) (some (contPlate p
            (cellAt row cm.workHistory) (cellAt row cm.shelfNumber)
            (cellAt row cm.previewImage) (idx + 1))) ?_ q hq
          intro p2 hp2
          injection hp2 with hp2
          subst hp2
          obtain ⟨h1, h2, h3⟩ := hcur p rfl
          refine ⟨by simp [contPlate], ?_, ?_⟩
          · simpa [contPlate] using chainLt_snoc p.sourceRows idx h2 h3
          · intro x hx
            simp only [contPlate] at hx
            rcases List.mem_append.mp hx with hx | hx
            · exact Nat.le_succ_of_le (h3 x hx)
            · simp at hx
              omega
      · rw [if_pos (by simpa using hpn)] at hq
        rcases List.mem_append.mp hq with hq | hq
        · cases cur with
          | none => simp at hq
          | some p =>
            simp only [Option.toList_some, List.mem_singleton] at hq
            subst hq
            exact ⟨(hcur q rfl).1, (hcur q rfl).2.1⟩
        · refine ih (idx + 1) _ ?_ q hq
          intro p2 hp2
          injection hp2 with hp2
          subst hp2
          refine ⟨by simp [mkPlate], by simp [mkPlate], ?_⟩
          intro x hx
          simp only [mkPlate, List.mem_singleton] at hx
          omega

/-- Claim-side description of how a run continues past its trigger row
(transcribed from the amended claim text): the indices of the immediately
following rows whose plate-number cell is empty, completely empty rows
omitted, stopping at the next triggering (nonempty plate-number) row. `idx`
is the loop counter before the next row is consumed, so the next row has
index `idx + 1`, like in the grouping loop. -/
def runContinuation (cm : ColIdx) : Nat → List (List String) → List Nat
  | _, [] => []
  | idx, row :: rest =>
    if isEmptyRow row then runContinuation cm (idx + 1) rest
    else if cellAt row cm.plateNumber = "" then
      (idx + 1) :: runContinuation cm (idx + 1) rest
    else []

/-- Claim-side description of all the runs of a worksheet (transcribed from
the amended claim text): one run per triggering row, starting at that row's
index and continuing per `runContinuation`. -/
def expectedSourceRuns (cm : ColIdx) : Nat → List (List String) → List (List Nat)
  | _, [] => []
  | idx, row :: rest =>
    if isEmptyRow row then expectedSourceRuns cm (idx + 1) rest
    else if cellAt row cm.plateNumber = "" then
      expectedSourceRuns cm (idx + 1) rest
    else
      ((idx + 1) :: runContinuation cm (idx + 1) rest)
        :: expectedSourceRuns cm (idx + 1) rest

/-- The grouping loop realises exactly the claim-side runs: the pending
plate's run is still being extended by the upcoming continuation rows, and
every later plate contributes its expected run. -/
lemma groupGo_map_sourceRows (lookup : Nat → Nat → Option Cell) (cm : ColIdx) :
    ∀ (rows : List (List String)) (idx : Nat) (cur : Option Plate),
      ((groupGo lookup cm idx cur rows).map fun p => p.sourceRows)
        = (cur.map fun p =>
            p.sourceRows ++ runContinuation cm idx rows).toList
          ++ expectedSourceRuns cm idx rows := by
  intro rows
  induction rows with
  | nil =>
    intro idx cur
    cases cur <;> simp [groupGo, runContinuation, expectedSourceRuns]
  | cons row rest ih =>
    intro idx cur
    simp only [groupGo]
    by_cases hemp : isEmptyRow row = true
    · rw [if_pos hemp, ih]
      simp [runContinuation, expectedSourceRuns, hemp]
    · by_cases hpn : cellAt row cm.plateNumber = ""
      · rw [if_neg hemp, if_neg (by simpa using hpn)]
        cases cur with
        | none =>
          rw [ih]
          simp [runContinuation, expectedSourceRuns, hemp, hpn]
        | some p =>
          rw [ih]
          simp [runContinuation, expectedSourceRuns, hemp, hpn, contPlate,
            List.append_assoc]
      · rw [if_neg hemp, if_pos (by simpa using hpn)]
        rw [List.map_append, ih]
        cases cur <;>
          simp [runContinuation, expectedSourceRuns, hemp, hpn, mkPlate]

/-- Claim C8 (amended): every emitted plate's `sourceRows` is exactly its
claim-side run — it starts at the triggering row's index and continues
through the immediately following rows whose plate-number cell is empty,
with completely empty rows inside the run omitted (so the indices need not
be contiguous); in particular each run is nonempty and strictly
increasing. -/
theorem claim_C8_theorem (lookup : Nat → Nat → Option Cell) (cm : ColIdx)
    (dataRows : List (List String)) :
    ((groupRowsByMergedPlates lookup cm dataRows).map fun p => p.sourceRows)
        = expectedSourceRuns cm 2 dataRows
    ∧ ∀ p ∈ groupRowsByMergedPlates lookup cm dataRows,
        p.sourceRows ≠ [] ∧ List.Chain' (· < ·) p.sourceRows := by
  constructor
  · have h := groupGo_map_sourceRows lookup cm dataRows 2 none
    simp only [Option.map_none', Option.toList_none, List.nil_append] at h
    unfold groupRowsByMergedPlates
    rw [List.map_map]
    rw [show ((fun p => p.sourceRows) ∘ finalizePlate)
        = fun p : Plate => p.sourceRows from funext fun p => rfl]
    exact h
  · intro p hp
    unfold groupRowsByMergedPlates at hp
    obtain ⟨q, hq, rfl⟩ := List.mem_map.mp hp
    have h := groupGo_sourceRows lookup cm dataRows 2 none
      (by intro p hp; cases hp) q hq
    exact ⟨by simpa [finalizePlate] using h.1,
      by simpa [finalizePlate] using h.2⟩

/-- A trigger row, a completely empty row, then a continuation row. -/
def rowsWithGap : List (List String) := [["P1"], [""], ["", "w"]]

/-- Claim C8 counterexample: the record triggered at row 3 has
`sourceRows = [3, 5]` — row 4 (the completely empty row inside the run) is
skipped, so the run is not contiguous. -/
theorem claim_C8_counterexample :
    ((groupRowsByMergedPlates noStyles colIdxCanonical rowsWithGap).map
        fun p => p.sourceRows) = [[3, 5]]
    ∧ 3 ∈ ([3, 5] : List Nat) ∧ 5 ∈ ([3, 5] : List Nat)
    ∧ 4 ∉ ([3, 5] : List Nat) := by decide

/-- The single record the grouper builds from the one-row sheet `[["5"]]`. -/
def plateFive : Plate :=
  { plateNumber := "5", workHistory := [], workProjects := [],
    shelfNumber := "Unknown", boxSize := "Unknown", previewImage := "",
    isLocked := false, sourceRows := [3], workHistoryCombined := "",
    rowCount := 1, firstRow := 3, lastRow := 3 }

/-- Witness for the amended claim C8 on a concrete one-row worksheet. -/
theorem claim_C8_witness :
    plateFive ∈ groupRowsByMergedPlates noStyles colIdxCanonical [["5"]]
    ∧ (plateFive.sourceRows ≠ []
      ∧ List.Chain' (· < ·) plateFive.sourceRows) :=
  ⟨by decide,
    (claim_C8_theorem noStyles colIdxCanonical [["5"]]).2 plateFive
      (by decide)⟩

/-- Claim C10: a continuation row never changes `plateNumber`, `boxSize` or
`isLocked`; it appends exactly its row index to `sourceRows`; it only ever
extends the work-history collections; and it assigns `shelfNumber` /
`previewImage` only while those are still unset (`"Unknown"` resp. empty). -/
theorem claim_C10_theorem (p : Plate) (wh sn pv : String) (idx : Nat) :
    (contPlate p wh sn pv idx).plateNumber = p.plateNumber
    ∧ (contPlate p wh sn pv idx).boxSize = p.boxSize
    ∧ (contPlate p wh sn pv idx).isLocked = p.isLocked
    ∧ (contPlate p wh sn pv idx).sourceRows = p.sourceRows ++ [idx]
    ∧ (∃ t, (contPlate p wh sn pv idx).workHistory = p.workHistory ++ t)
    ∧ (∃ t, (contPlate p wh sn pv idx).workProjects = p.workProjects ++ t)
    ∧ (contPlate p wh sn pv idx).shelfNumber
        = (if (p.shelfNumber = "" ∨ p.shelfNumber = "Unknown") ∧ sn ≠ ""
           then sn else p.shelfNumber)
    ∧ (contPlate p wh sn pv idx).previewImage
        = (if p.previewImage = "" ∧ pv ≠ "" then pv else p.previewImage) := by
  refine ⟨rfl, rfl, rfl, rfl, ?_, ?_, ?_, ?_⟩
  · by_cases hw : wh = ""
    · exact ⟨[], by simp [contPlate, hw]⟩
    · exact ⟨[wh], by simp [contPlate, hw]⟩
  · by_cases hw : wh = ""
    · exact ⟨[], by simp [contPlate, hw]⟩
    · exact ⟨parseWorkHistory wh, by simp [contPlate, hw]⟩
  · by_cases h1 : p.shelfNumber = "" <;> by_cases h2 : p.shelfNumber = "Unknown"
      <;> by_cases h3 : sn = "" <;> simp [contPlate, h1, h2, h3]
  · by_cases h1 : p.previewImage = "" <;> by_cases h2 : pv = "" <;>
      simp [contPlate, h1, h2]

end ClampingPlate
